import Mathlib

/-!
Shallow embedding of the Legato signal-to-event bridge
(`src/framework/c/src/signals.c`) and proofs about it.

Modelling conventions:
* Signal numbers are `Nat`, using the standard Linux numeric values for the
  named constants that appear in the source.
* Callback function pointers are modelled as `Option Nat`: `none` is the C
  `NULL` pointer, `some f` a non-NULL pointer identified by `f`.  The code
  only ever compares callbacks against `NULL` and stores them, so this is
  faithful.
* The per-thread `MonitorObj_t` (retrieved via `pthread_getspecific`) is an
  `Option MonitorObj` for the registration path: `none` means no context
  exists for the calling thread.  For the teardown lifecycle, `SigTls`
  models the raw `SigMonKey` slot itself — `NULL`, a valid object, or a
  dangling pointer to a freed one — because `le_sig_DeleteAll` frees the
  monitor object without clearing the slot.
* The mask installed into the thread's signalfd by the `signalfd(2)` call is
  recorded in the `sigMask` field (the kernel-side state attached to the
  descriptor).  `sigemptyset` starts from the empty set and the recompute
  loop performs one `sigaddset` per handler entry in list order, so the mask
  is recorded as the list of those signal numbers.
* `signalfd(fd, ...)` returns the same descriptor when `fd` is not `-1`, and
  a fresh descriptor when `fd == -1`; the fresh descriptor is supplied as an
  explicit `freshFd` argument.  The `LE_FATAL` path on `signalfd` failure
  models the kernel call as succeeding, as the claims quantify over calls
  that complete.
-/

/-- Linux signal number for SIGILL. -/
def SIGILL : Nat := 4
/-- Linux signal number for SIGTRAP. -/
def SIGTRAP : Nat := 5
/-- Linux signal number for SIGABRT. -/
def SIGABRT : Nat := 6
/-- Linux signal number for SIGIOT (alias of SIGABRT on Linux). -/
def SIGIOT : Nat := 6
/-- Linux signal number for SIGBUS. -/
def SIGBUS : Nat := 7
/-- Linux signal number for SIGFPE. -/
def SIGFPE : Nat := 8
/-- Linux signal number for SIGKILL. -/
def SIGKILL : Nat := 9
/-- Linux signal number for SIGSEGV. -/
def SIGSEGV : Nat := 11
/-- Linux signal number for SIGTERM. -/
def SIGTERM : Nat := 15
/-- Linux signal number for SIGSTOP. -/
def SIGSTOP : Nat := 19
/-- Linux signal number for SIGSYS. -/
def SIGSYS : Nat := 31

/-- The signal event handler object (`HandlerObj_t`): a signal number and the
registered callback.  The stored callback is always a non-NULL pointer
(`le_sig_SetEventHandler` only allocates an entry when the argument is
non-NULL), so it is a bare `Nat` here. -/
structure HandlerObj where
  sigNum : Nat
  handler : Nat
deriving DecidableEq, Repr

/-- The signal event monitor object (`MonitorObj_t`), one per thread: the
event-loop registration (`monitorRef`, `true` once `le_fdMonitor_Create` has
run), the signalfd (`fd`, `none` for the C sentinel `-1`), the mask currently
installed in that signalfd, and the list of handler objects. -/
structure MonitorObj where
  monitorRef : Bool
  fd : Option Nat
  sigMask : List Nat
  handlerObjList : List HandlerObj
deriving DecidableEq, Repr

/-- `FindHandlerObj`: walk the handler list and return the first entry with a
matching signal number, `none` if there is none. -/
def FindHandlerObj (sigNum : Nat) : List HandlerObj → Option HandlerObj
  | [] => none
  | h :: t => if h.sigNum = sigNum then some h else FindHandlerObj sigNum t

/-- `le_dls_Remove` of the node returned by `FindHandlerObj`: drop the first
entry with the given signal number. -/
def removeFirst (sigNum : Nat) : List HandlerObj → List HandlerObj
  | [] => []
  | h :: t => if h.sigNum = sigNum then t else h :: removeFirst sigNum t

/-- In-place update (`handlerObjPtr->handler = sigEventHandler`) of the entry
returned by `FindHandlerObj`: replace the callback of the first entry with
the given signal number. -/
def updateFirst (sigNum : Nat) (f : Nat) : List HandlerObj → List HandlerObj
  | [] => []
  | h :: t =>
      if h.sigNum = sigNum then { h with handler := f } :: t
      else h :: updateFirst sigNum f t

/-- The reserved-signal test at the top of `le_sig_SetEventHandler`
(`sigNum == SIGKILL || ... || sigNum == SIGSYS`, in source order). -/
def reservedCheck (sigNum : Nat) : Bool :=
  (sigNum == SIGKILL) || (sigNum == SIGSTOP) || (sigNum == SIGFPE) ||
  (sigNum == SIGILL) || (sigNum == SIGSEGV) || (sigNum == SIGBUS) ||
  (sigNum == SIGABRT) || (sigNum == SIGIOT) || (sigNum == SIGTRAP) ||
  (sigNum == SIGSYS)

/-- The tail of `le_sig_SetEventHandler` after the handler list has been
edited: recreate the signal mask by folding `sigaddset` over the handler
list, update or create the signalfd (`signalfd` keeps an existing descriptor
and allocates a fresh one for `-1`), and create the fd monitor when
`monitorRef` is still `NULL`. -/
def refreshMaskAndFd (m : MonitorObj) (freshFd : Nat) : MonitorObj :=
  { m with
    sigMask := m.handlerObjList.map (fun h => h.sigNum),
    fd := some (match m.fd with
                | none => freshFd
                | some f => f),
    monitorRef := true }

/-- Result of `le_sig_SetEventHandler`: either the `LE_FATAL` assertion firing
(the diagnostic names the offending signal via `strsignal(sigNum)`, carried
here as the signal number), or normal return with the new per-thread state. -/
inductive SetResult where
  | fatal (sigNum : Nat)
  | ok (st : Option MonitorObj)
deriving DecidableEq, Repr

/-- The part of `le_sig_SetEventHandler` shared by a pre-existing monitor
object and a freshly created one (the C code falls through to it after the
context lookup/creation): find the handler entry with `FindHandlerObj`;
return unchanged when neither the entry nor the callback exists; allocate
and queue a new entry, remove the found entry, or update its callback in
place; then recompute the mask, update/create the signalfd and create the
fd monitor. -/
def setHandlerOnMonitor (sigNum : Nat) (cb : Option Nat) (m : MonitorObj)
    (freshFd : Nat) : SetResult :=
  match FindHandlerObj sigNum m.handlerObjList, cb with
  | none, none => SetResult.ok (some m)
  | none, some f =>
      SetResult.ok (some (refreshMaskAndFd
        { m with handlerObjList :=
            m.handlerObjList ++ [{ sigNum := sigNum, handler := f }] }
        freshFd))
  | some _, none =>
      SetResult.ok (some (refreshMaskAndFd
        { m with handlerObjList := removeFirst sigNum m.handlerObjList }
        freshFd))
  | some _, some f =>
      SetResult.ok (some (refreshMaskAndFd
        { m with handlerObjList := updateFirst sigNum f m.handlerObjList }
        freshFd))

/-- `le_sig_SetEventHandler(sigNum, sigEventHandler)` acting on the calling
thread's context `st`.  Mirrors the source: reserved-signal check first
(`LE_FATAL`); if no monitor object exists, return immediately when the
callback is `NULL`, otherwise allocate a monitor object with an empty list,
`fd = -1`, `monitorRef = NULL` and fall through to the shared
find/edit/recompute code. -/
def le_sig_SetEventHandler (sigNum : Nat) (sigEventHandler : Option Nat)
    (st : Option MonitorObj) (freshFd : Nat) : SetResult :=
  if reservedCheck sigNum then SetResult.fatal sigNum
  else
    match st, sigEventHandler with
    | none, none => SetResult.ok none
    | none, some _ =>
        setHandlerOnMonitor sigNum sigEventHandler
          { monitorRef := false, fd := none, sigMask := [], handlerObjList := [] }
          freshFd
    | some m, _ => setHandlerOnMonitor sigNum sigEventHandler m freshFd

/-- One call in a sequence of `le_sig_SetEventHandler` invocations on a single
thread: the signal number, the callback argument, and the descriptor the
kernel would hand out if `signalfd` is called with `-1`. -/
structure SetCall where
  sigNum : Nat
  cb : Option Nat
  freshFd : Nat
deriving DecidableEq, Repr

/-- Apply one `SetCall` to the thread state.  The `fatal` branch keeps the
state unchanged; it is unreachable for the non-reserved calls the theorems
quantify over (the process would have terminated). -/
def applyCall (st : Option MonitorObj) (c : SetCall) : Option MonitorObj :=
  match le_sig_SetEventHandler c.sigNum c.cb st c.freshFd with
  | SetResult.fatal _ => st
  | SetResult.ok st2 => st2

/-- Apply a sequence of `SetCall`s, first call first. -/
def applyCalls (cs : List SetCall) (st : Option MonitorObj) : Option MonitorObj :=
  cs.foldl applyCall st

/-- The signal numbers currently installed in the thread's signalfd mask
(empty when no context exists, hence no signalfd). -/
def maskOf : Option MonitorObj → List Nat
  | none => []
  | some m => m.sigMask

/-- The signal numbers that currently have a handler entry in the thread's
context (empty when no context exists). -/
def handlerSigsOf : Option MonitorObj → List Nat
  | none => []
  | some m => m.handlerObjList.map (fun h => h.sigNum)

/-- One outcome of the `close(2)` call inside `le_sig_DeleteAll`'s retry
loop. -/
inductive CloseRes where
  | ok
  | eintr
  | err
deriving DecidableEq, Repr

/-- The `while(1)` close-retry loop of `le_sig_DeleteAll`: `close` returning 0
ends the loop, `EINTR` retries, any other failure is `LE_FATAL`.  Returns
`true` when the loop exits normally.  An exhausted oracle is treated as
fatal; a real `close` always returns, so this case is a fuel artifact. -/
def closeLoop : List CloseRes → Bool
  | [] => false
  | CloseRes.ok :: _ => true
  | CloseRes.eintr :: rest => closeLoop rest
  | CloseRes.err :: _ => false

/-- The raw `SigMonKey` thread-local slot as `pthread_getspecific` sees it:
`NULL`; a pointer to a live monitor object; or a dangling pointer to a
monitor object that has been `le_mem_Release`d.  The dangling case arises
because `le_sig_DeleteAll` frees the monitor object without clearing the
slot — the only `pthread_setspecific` in the file is the one in
`le_sig_SetEventHandler`.  In the dangling case the carried `MonitorObj` is
the stale last-valid contents the pointer still refers to. -/
inductive SigTls where
  | null
  | valid (m : MonitorObj)
  | dangling (m : MonitorObj)
deriving DecidableEq, Repr

/-- Result of `le_sig_DeleteAll`: `fatal` when the close loop hit a
non-`EINTR` failure, otherwise the resulting thread-local slot together with
whether a teardown (monitor delete, fd close, entry frees, monitor free) was
performed at all. -/
inductive DeleteResult where
  | fatal
  | done (tls : SigTls) (toreDown : Bool)
deriving DecidableEq, Repr

/-- `le_sig_DeleteAll()` on the calling thread's slot: no-op when
`pthread_getspecific` returns `NULL`; otherwise delete the fd monitor,
close the descriptor (retrying on `EINTR`, fatal otherwise), pop and free
every handler object, and free the monitor object — without ever clearing
the `SigMonKey` slot, which is therefore left dangling.  When the slot
already dangles, the non-NULL check still passes, so the teardown branch is
re-entered on the freed object (a use-after-free); on a real run the
already-closed descriptor makes `close(2)` fail with `EBADF`, i.e. the
close loop receives a non-`EINTR` error and the call is `LE_FATAL`. -/
def le_sig_DeleteAll (tls : SigTls) (closeRes : List CloseRes) :
    DeleteResult :=
  match tls with
  | SigTls.null => DeleteResult.done SigTls.null false
  | SigTls.valid m =>
      if closeLoop closeRes then DeleteResult.done (SigTls.dangling m) true
      else DeleteResult.fatal
  | SigTls.dangling m =>
      if closeLoop closeRes then DeleteResult.done (SigTls.dangling m) true
      else DeleteResult.fatal

/-- One outcome of the `read(2)` of a `signalfd_siginfo` record inside
`OurSigHandler`'s drain loop: a record carrying `ssi_signo` (size > 0), end
of data (size 0), `EAGAIN`, `EINTR`, or any other read error. -/
inductive ReadRes where
  | record (sigNum : Nat)
  | zero
  | eagain
  | eintr
  | err
deriving DecidableEq, Repr

/-- `true` exactly for the `EINTR` read outcome. -/
def isEintrRead : ReadRes → Bool
  | ReadRes.eintr => true
  | _ => false

/-- `true` exactly for a read outcome that delivered a record. -/
def isRecordRead : ReadRes → Bool
  | ReadRes.record _ => true
  | _ => false

/-- How `OurSigHandler` ended: normal end of batch (read size 0 or `EAGAIN`),
`LE_FATAL` on any other read error, the `LE_ASSERT(monitorObjPtr != NULL)`
firing, or the early return taken when the event set lacks `POLLIN`. -/
inductive DrainEnd where
  | normal
  | fatalRead
  | fatalAssert
  | skipped
deriving DecidableEq, Repr

/-- The `while(1)` drain loop of `OurSigHandler`, driven by the successive
read outcomes: a record looks the signal number up with `FindHandlerObj` in
the calling thread's own monitor object (fetched via
`pthread_getspecific(SigMonKey)`, asserted non-NULL) and, if an entry is
found, invokes its callback synchronously with the signal number — recorded
as a `(signal, callback)` pair; size 0 and `EAGAIN` break the loop; `EINTR`
retries; any other error is `LE_FATAL`.  The C code additionally checks the
found entry's callback against `NULL`, which never fires since entries always
store non-NULL callbacks.  An exhausted oracle ends the batch; a real
signalfd drains to `EAGAIN`, so this case is a fuel artifact. -/
def OurSigHandlerLoop : List ReadRes → Option MonitorObj → List (Nat × Nat) × DrainEnd
  | [], _ => ([], DrainEnd.normal)
  | ReadRes.record _ :: _, none => ([], DrainEnd.fatalAssert)
  | ReadRes.record s :: rest, some m =>
      (match FindHandlerObj s m.handlerObjList with
       | some h =>
           let p := OurSigHandlerLoop rest (some m)
           ((s, h.handler) :: p.1, p.2)
       | none => OurSigHandlerLoop rest (some m))
  | ReadRes.zero :: _, _ => ([], DrainEnd.normal)
  | ReadRes.eagain :: _, _ => ([], DrainEnd.normal)
  | ReadRes.eintr :: rest, st => OurSigHandlerLoop rest st
  | ReadRes.err :: _, _ => ([], DrainEnd.fatalRead)

/-- End status determined by the first read outcome that is neither a record
nor `EINTR`: an error read is fatal, anything else (size 0, `EAGAIN`, or an
exhausted oracle) ends the batch normally. -/
def drainEndOf : List ReadRes → DrainEnd
  | ReadRes.err :: _ => DrainEnd.fatalRead
  | _ => DrainEnd.normal

/-- `OurSigHandler(fd, events)`: when the event set contains bits other than
`POLLIN`, `LE_CRIT` is logged and, if `POLLIN` itself is absent, the handler
returns without reading; otherwise the drain loop runs. -/
def OurSigHandler (hasPollin hasOtherBits : Bool) (reads : List ReadRes)
    (st : Option MonitorObj) : List (Nat × Nat) × DrainEnd :=
  if hasOtherBits && !hasPollin then ([], DrainEnd.skipped)
  else OurSigHandlerLoop reads st

/-- The environment the crash-diagnostics handler reads at crash time: ids,
fault address and program counter from the signal context, whether the
version file opens and what a single `read` of it yields (`none` models
`rc <= 0`), the chunks the command-line pseudo-file yields (after the
`'\0' -> ' '` translation, abstracted to chunk ids), the newline-terminated
chunks assembled from the maps pseudo-file by the byte-wise read loop, the
addresses `backtrace` fills in (at most 12), and the gdbserver port (0 means
disabled). -/
structure CrashEnv where
  pid : Nat
  tid : Nat
  addr : Nat
  pc : Nat
  versionOpenOk : Bool
  versionRead : Option Nat
  cmdlineOpenOk : Bool
  cmdlineChunks : List Nat
  mapsOpenOk : Bool
  mapsLines : List Nat
  backtrace : List Nat
  gdbPort : Nat
deriving DecidableEq, Repr

/-- One `write(2)` to the diagnostic output channel (fd 2) performed by
`ShowStackSignalHandler`, identified by which formatted buffer it writes. -/
inductive WriteItem where
  | processLine (pid tid : Nat)
  | signalLine (sigNum addr pc : Nat)
  | explainIllegalAddress (addr : Nat)
  | explainFpe (addr : Nat)
  | explainTrap (addr : Nat)
  | explainAbort
  | explainIll (addr : Nat)
  | explainBus (addr : Nat)
  | explainUnexpected (sigNum : Nat)
  | versionHeader
  | versionContent (c : Nat)
  | newline
  | cannotReadVersion
  | cmdlineHeader
  | cmdlineChunk (c : Nat)
  | mapsHeader
  | mapsLine (l : Nat)
  | backtraceHeader
  | backtraceFrame (idx : Nat) (addr : Nat)
  | doneMarker
deriving DecidableEq, Repr

/-- The `switch (sigNum)` selecting the one-line signal explanation. -/
def explainItem (sigNum : Nat) (env : CrashEnv) : WriteItem :=
  if sigNum = SIGSEGV then WriteItem.explainIllegalAddress env.addr
  else if sigNum = SIGFPE then WriteItem.explainFpe env.addr
  else if sigNum = SIGTRAP then WriteItem.explainTrap env.addr
  else if sigNum = SIGABRT then WriteItem.explainAbort
  else if sigNum = SIGILL then WriteItem.explainIll env.addr
  else if sigNum = SIGBUS then WriteItem.explainBus env.addr
  else WriteItem.explainUnexpected sigNum

/-- The sequence of writes `ShowStackSignalHandler` attempts when every write
succeeds, in source order: process/tid line; signal line (fault address
suppressed — `NULL`, i.e. 0 — for `SIGABRT`); explanation line; `LEGATO
VERSION` header, then, only if the version file opened, either its content
followed by a newline (read `rc > 0`) or the `Cannot read legato version`
line (`rc <= 0`); `PROCESS COMMAND LINE` header, then, only if the cmdline
file opened, each chunk followed by a final newline; `PROCESS MAP` header,
then, only if the maps file opened, each assembled line; `BACKTRACE` header,
then (generic, non-arm branch) one frame line per `backtrace` entry skipping
the two innermost frames; and the `DONE` marker.  The gdbserver fork/wait
step after `DONE` performs no writes and is not recorded. -/
def plannedWrites (sigNum : Nat) (env : CrashEnv) : List WriteItem :=
  [WriteItem.processLine env.pid env.tid,
   WriteItem.signalLine sigNum (if sigNum = SIGABRT then 0 else env.addr) env.pc,
   explainItem sigNum env,
   WriteItem.versionHeader]
  ++ (if env.versionOpenOk then
        match env.versionRead with
        | some c => [WriteItem.versionContent c, WriteItem.newline]
        | none => [WriteItem.cannotReadVersion]
      else [])
  ++ [WriteItem.cmdlineHeader]
  ++ (if env.cmdlineOpenOk then
        env.cmdlineChunks.map WriteItem.cmdlineChunk ++ [WriteItem.newline]
      else [])
  ++ [WriteItem.mapsHeader]
  ++ (if env.mapsOpenOk then env.mapsLines.map WriteItem.mapsLine else [])
  ++ [WriteItem.backtraceHeader]
  ++ ((env.backtrace.drop 2).enum.map
        (fun p => WriteItem.backtraceFrame p.1 p.2))
  ++ [WriteItem.doneMarker]

/-- Attempt the planned writes in order against a write oracle (`oracle k`
tells whether the `k`-th write, counted from `k0`, transfers the full
buffer).  Mirrors the `CHECK_WRITE` macro and the two open-coded equivalents
in the cmdline and maps loops: a short or failed write stops everything at
once.  Returns the writes that succeeded and whether all of them did. -/
def runWrites : List WriteItem → (Nat → Bool) → Nat → List WriteItem × Bool
  | [], _, _ => ([], true)
  | it :: rest, oracle, k0 =>
      if oracle k0 then
        let p := runWrites rest oracle (k0 + 1)
        (it :: p.1, p.2)
      else ([], false)

/-- How `ShowStackSignalHandler` returned: having emitted the whole report
and re-raised the signal (the final `raise(sigNum)`), or having re-raised it
early from a failed write's `raise(sigNum); return` path. -/
inductive CrashOutcome where
  | completedAndRaised
  | raisedEarly
deriving DecidableEq, Repr

/-- `ShowStackSignalHandler(sigNum, ...)`: performs the planned writes in
order; any failed write re-raises the signal and returns immediately, and a
fully emitted report is followed by the final `raise(sigNum)`.  Both paths
re-raise, so the outcome records which one was taken. -/
def ShowStackSignalHandler (sigNum : Nat) (env : CrashEnv)
    (oracle : Nat → Bool) : List WriteItem × CrashOutcome :=
  let p := runWrites (plannedWrites sigNum env) oracle 0
  (p.1, if p.2 then CrashOutcome.completedAndRaised else CrashOutcome.raisedEarly)

/-- The `SIGNAL_SHOW_INFO` disable test in `le_sig_InstallShowStackHandler`:
the variable is set and `strcasecmp` matches `disable` or `no`. -/
def showInfoDisabled (signalShowInfo : Option String) : Bool :=
  match signalShowInfo with
  | none => false
  | some s => s.toLower == "disable" || s.toLower == "no"

/-- One `sigaction(2)` installation performed by
`le_sig_InstallShowStackHandler`: the signal it is installed for, and whether
`SA_RESETHAND` is in `sa_flags` (one-shot: the disposition reverts to
default on first invocation). -/
structure SigActionInstall where
  sigNum : Nat
  resethand : Bool
deriving DecidableEq, Repr

/-- `le_sig_InstallShowStackHandler()`: when `SIGNAL_SHOW_INFO` requests
disabling, return with nothing installed; otherwise install
`ShowStackSignalHandler` with flags `SA_NOCLDSTOP | SA_SIGINFO |
SA_RESETHAND` via five `sigaction` calls, for SIGSEGV, SIGBUS, SIGILL,
SIGFPE and SIGABRT, in source order.  (The trailing `GDBSERVER_PORT` parse
only sets the `GdbServerPort` global, modelled by `CrashEnv.gdbPort`.) -/
def le_sig_InstallShowStackHandler (signalShowInfo : Option String) :
    List SigActionInstall :=
  if showInfoDisabled signalShowInfo then []
  else
    [{ sigNum := SIGSEGV, resethand := true },
     { sigNum := SIGBUS, resethand := true },
     { sigNum := SIGILL, resethand := true },
     { sigNum := SIGFPE, resethand := true },
     { sigNum := SIGABRT, resethand := true }]

/-! Concrete example inputs used by the witness theorems. -/

/-- A concrete per-thread context: one handler registered for signal 10. -/
def monitorEx : MonitorObj :=
  { monitorRef := true, fd := some 3, sigMask := [10],
    handlerObjList := [{ sigNum := 10, handler := 1 }] }

/-- A concrete context with handlers for signals 10 and 12. -/
def monitorEx2 : MonitorObj :=
  { monitorRef := true, fd := some 3, sigMask := [10, 12],
    handlerObjList := [{ sigNum := 10, handler := 1 },
                       { sigNum := 12, handler := 2 }] }

/-- A concrete call sequence: register 10, register 12, remove 10. -/
def csEx : List SetCall :=
  [{ sigNum := 10, cb := some 1, freshFd := 5 },
   { sigNum := 12, cb := some 2, freshFd := 6 },
   { sigNum := 10, cb := none, freshFd := 7 }]

/-- A concrete crash-time environment whose version file opens and reads. -/
def crashEnvEx : CrashEnv :=
  { pid := 42, tid := 43, addr := 100, pc := 200,
    versionOpenOk := true, versionRead := some 1,
    cmdlineOpenOk := true, cmdlineChunks := [1],
    mapsOpenOk := true, mapsLines := [1, 2],
    backtrace := [900, 901, 902, 903], gdbPort := 0 }

/-- A crash-time environment where the version file cannot be opened. -/
def crashEnvNoVersionFile : CrashEnv :=
  { pid := 42, tid := 43, addr := 100, pc := 200,
    versionOpenOk := false, versionRead := none,
    cmdlineOpenOk := false, cmdlineChunks := [],
    mapsOpenOk := false, mapsLines := [],
    backtrace := [], gdbPort := 0 }

/-- A crash-time environment where the version file opens but reads empty. -/
def crashEnvEmptyVersion : CrashEnv :=
  { pid := 42, tid := 43, addr := 100, pc := 200,
    versionOpenOk := true, versionRead := none,
    cmdlineOpenOk := false, cmdlineChunks := [],
    mapsOpenOk := false, mapsLines := [],
    backtrace := [], gdbPort := 0 }

/-- A write oracle whose third write (index 2) fails. -/
def oracleFailAt2 : Nat → Bool := fun n => decide (n < 2)

/-! Theorems.  First, unfolding lemmas for `le_sig_SetEventHandler` once the
reserved-signal check has passed. -/

/-- With a non-reserved signal, no monitor object and a `NULL` callback,
`le_sig_SetEventHandler` returns immediately. -/
theorem setEventHandler_eq_none_none (s fd : Nat)
    (hres : reservedCheck s = false) :
    le_sig_SetEventHandler s none none fd = SetResult.ok none := by
  unfold le_sig_SetEventHandler
  rw [hres]
  rfl

/-- With a non-reserved signal, no monitor object and a non-`NULL` callback,
`le_sig_SetEventHandler` creates a fresh monitor object and falls through to
the shared code. -/
theorem setEventHandler_eq_none_some (s f fd : Nat)
    (hres : reservedCheck s = false) :
    le_sig_SetEventHandler s (some f) none fd =
      setHandlerOnMonitor s (some f)
        { monitorRef := false, fd := none, sigMask := [], handlerObjList := [] }
        fd := by
  unfold le_sig_SetEventHandler
  rw [hres]
  rfl

/-- With a non-reserved signal and an existing monitor object,
`le_sig_SetEventHandler` is the shared find/edit/recompute code. -/
theorem setEventHandler_eq_some (s : Nat) (cb : Option Nat) (m : MonitorObj)
    (fd : Nat) (hres : reservedCheck s = false) :
    le_sig_SetEventHandler s cb (some m) fd = setHandlerOnMonitor s cb m fd := by
  unfold le_sig_SetEventHandler
  rw [hres]
  rfl

/-- C2: for every signal number in the reserved set claimed by the
specification — kill and stop together with the fatal-signal set
(segmentation fault, illegal instruction, bus error, floating-point
exception, abort, trap) — and every callback argument, `le_sig_SetEventHandler`
terminates the process through the `LE_FATAL` assertion whose diagnostic
names that signal, performing no state change (the assertion fires before
any state is touched, so no post-state exists). -/
theorem c2_reserved_signal_fatal (s : Nat)
    (hs : s = SIGKILL ∨ s = SIGSTOP ∨ s = SIGSEGV ∨ s = SIGILL ∨ s = SIGBUS ∨
          s = SIGFPE ∨ s = SIGABRT ∨ s = SIGTRAP)
    (cb : Option Nat) (st : Option MonitorObj) (fd : Nat) :
    le_sig_SetEventHandler s cb st fd = SetResult.fatal s := by
  have hres : reservedCheck s = true := by
    rcases hs with h | h | h | h | h | h | h | h <;> subst h <;> decide
  unfold le_sig_SetEventHandler
  rw [hres]
  rfl

/-- Witness for C2 at the kill signal. -/
theorem c2_reserved_signal_fatal_witness :
    le_sig_SetEventHandler SIGKILL (some 1) (some monitorEx) 0 =
      SetResult.fatal SIGKILL :=
  c2_reserved_signal_fatal SIGKILL (Or.inl rfl) (some 1) (some monitorEx) 0

/-- C9: calling `le_sig_SetEventHandler` with a `NULL` callback for a
non-reserved signal that has no current handler entry on the calling thread
returns with no observable change: with no context, none is created; with a
context, the returned state is exactly the input state — handler list,
signalfd, installed mask and event-loop registration untouched, the
mask/descriptor recomputation skipped entirely. -/
theorem c9_remove_nonexistent_is_noop (s fd : Nat)
    (hres : reservedCheck s = false) :
    le_sig_SetEventHandler s none none fd = SetResult.ok none ∧
    ∀ m : MonitorObj, FindHandlerObj s m.handlerObjList = none →
      le_sig_SetEventHandler s none (some m) fd = SetResult.ok (some m) := by
  constructor
  · exact setEventHandler_eq_none_none s fd hres
  · intro m hF
    rw [setEventHandler_eq_some s none m fd hres]
    unfold setHandlerOnMonitor
    rw [hF]

/-- Witness for C9 at signal 12 against a context holding only signal 10. -/
theorem c9_remove_nonexistent_is_noop_witness :
    le_sig_SetEventHandler 12 none none 0 = SetResult.ok none ∧
    le_sig_SetEventHandler 12 none (some monitorEx) 0 =
      SetResult.ok (some monitorEx) :=
  ⟨(c9_remove_nonexistent_is_noop 12 0 (by decide)).1,
   (c9_remove_nonexistent_is_noop 12 0 (by decide)).2 monitorEx (by decide)⟩

/-- C4 (code bug): `le_sig_DeleteAll` never clears the `SigMonKey`
thread-local slot (the only `pthread_setspecific` in the file is in
`le_sig_SetEventHandler`), so calling it twice after a context existed is
not the claimed safe pair of no-context-leaving calls.  Concretely: the
first call on a live one-handler context tears down and leaves the slot
dangling; the second call sees the stale non-NULL pointer, re-enters the
teardown branch on the freed monitor object and, with `close(2)` of the
already-closed descriptor failing with `EBADF` (not `EINTR`), hits
`LE_FATAL`; and no close outcome whatsoever lets a call on the dangling
slot return the thread to the no-context state. -/
theorem c4_second_deleteAll_use_after_free :
    le_sig_DeleteAll (SigTls.valid monitorEx) [CloseRes.ok] =
      DeleteResult.done (SigTls.dangling monitorEx) true ∧
    le_sig_DeleteAll (SigTls.dangling monitorEx) [CloseRes.err] =
      DeleteResult.fatal ∧
    ∀ (o : List CloseRes) (b : Bool),
      le_sig_DeleteAll (SigTls.dangling monitorEx) o ≠
        DeleteResult.done SigTls.null b := by
  refine ⟨rfl, rfl, ?_⟩
  intro o b
  unfold le_sig_DeleteAll
  cases h : closeLoop o <;> simp [h]

/-- Every completed run of the shared find/edit/recompute code returns an
existing monitor object whose installed mask lists exactly its handler
entries' signal numbers. -/
theorem setHandlerOnMonitor_mask (s : Nat) (cb : Option Nat) (m : MonitorObj)
    (fd : Nat) (hinv : m.sigMask = m.handlerObjList.map (fun h => h.sigNum)) :
    ∃ m2, setHandlerOnMonitor s cb m fd = SetResult.ok (some m2) ∧
      m2.sigMask = m2.handlerObjList.map (fun h => h.sigNum) := by
  unfold setHandlerOnMonitor
  cases hF : FindHandlerObj s m.handlerObjList with
  | none =>
      cases cb with
      | none => exact ⟨m, rfl, hinv⟩
      | some f => exact ⟨_, rfl, rfl⟩
  | some e =>
      cases cb with
      | none => exact ⟨_, rfl, rfl⟩
      | some f => exact ⟨_, rfl, rfl⟩

/-- C7: with a context present, a completed `le_sig_SetEventHandler` call
always leaves a context present (`Present` never goes to `Absent` through
it); in particular removing the last remaining handler entry keeps the
context with its signalfd and its event-loop registration unchanged; and it
is `le_sig_DeleteAll` that performs the release: on a live context it
carries out the teardown — monitor delete, descriptor close, entry frees,
monitor object free — so the context object is gone afterwards (the
thread-local slot itself is left dangling rather than `NULL`; that defect
is the C4 finding). -/
theorem c7_context_survives_handler_removal :
    (∀ (m : MonitorObj) (s : Nat) (cb : Option Nat) (fd : Nat),
        reservedCheck s = false →
        ∃ m2, le_sig_SetEventHandler s cb (some m) fd = SetResult.ok (some m2)) ∧
    (∀ (m : MonitorObj) (e : HandlerObj) (fd f0 : Nat),
        reservedCheck e.sigNum = false →
        m.handlerObjList = [e] → m.fd = some f0 → m.monitorRef = true →
        ∃ m2, le_sig_SetEventHandler e.sigNum none (some m) fd =
            SetResult.ok (some m2) ∧
          m2.handlerObjList = [] ∧ m2.fd = some f0 ∧ m2.monitorRef = true) ∧
    (∀ (m : MonitorObj) (o : List CloseRes), closeLoop o = true →
        le_sig_DeleteAll (SigTls.valid m) o =
          DeleteResult.done (SigTls.dangling m) true) := by
  refine ⟨?_, ?_, ?_⟩
  · intro m s cb fd hres
    rw [setEventHandler_eq_some s cb m fd hres]
    unfold setHandlerOnMonitor
    cases hF : FindHandlerObj s m.handlerObjList <;> cases cb <;> exact ⟨_, rfl⟩
  · intro m e fd f0 hres hlist hfd hmr
    rw [setEventHandler_eq_some e.sigNum none m fd hres]
    unfold setHandlerOnMonitor
    have hFind : FindHandlerObj e.sigNum [e] = some e := by
      simp [FindHandlerObj]
    have hRem : removeFirst e.sigNum [e] = [] := by
      simp [removeFirst]
    rw [hlist, hFind, hRem]
    refine ⟨_, rfl, rfl, ?_, rfl⟩
    simp [refreshMaskAndFd, hfd]
  · intro m o h
    unfold le_sig_DeleteAll
    rw [h]
    rfl

/-- Witness for C7: removing the single handler of `monitorEx` keeps the
context, descriptor 3 and the registration; a `le_sig_DeleteAll` call on
the live context performs the teardown. -/
theorem c7_context_survives_handler_removal_witness :
    (∃ m2, le_sig_SetEventHandler 10 none (some monitorEx) 0 =
        SetResult.ok (some m2) ∧
      m2.handlerObjList = [] ∧ m2.fd = some 3 ∧ m2.monitorRef = true) ∧
    le_sig_DeleteAll (SigTls.valid monitorEx) [CloseRes.eintr, CloseRes.ok] =
      DeleteResult.done (SigTls.dangling monitorEx) true :=
  ⟨c7_context_survives_handler_removal.2.1 monitorEx
      { sigNum := 10, handler := 1 } 0 3 (by decide) rfl rfl rfl,
   c7_context_survives_handler_removal.2.2 monitorEx
     [CloseRes.eintr, CloseRes.ok] (by decide)⟩

/-- One completed, non-reserved `le_sig_SetEventHandler` call preserves the
property that the installed signalfd mask lists exactly the signal numbers
with a handler entry. -/
theorem maskInv_step (st : Option MonitorObj) (c : SetCall)
    (hres : reservedCheck c.sigNum = false)
    (hinv : maskOf st = handlerSigsOf st) :
    maskOf (applyCall st c) = handlerSigsOf (applyCall st c) := by
  obtain ⟨s, cb, fd⟩ := c
  unfold applyCall
  dsimp only at hres ⊢
  cases st with
  | none =>
      cases cb with
      | none =>
          rw [setEventHandler_eq_none_none s fd hres]
          rfl
      | some f =>
          rw [setEventHandler_eq_none_some s f fd hres]
          obtain ⟨m2, heq, hm2⟩ := setHandlerOnMonitor_mask s (some f)
            { monitorRef := false, fd := none, sigMask := [],
              handlerObjList := [] } fd rfl
          rw [heq]
          exact hm2
  | some m =>
      rw [setEventHandler_eq_some s cb m fd hres]
      obtain ⟨m2, heq, hm2⟩ := setHandlerOnMonitor_mask s cb m fd hinv
      rw [heq]
      exact hm2

/-- The mask/handler-set property is preserved along any completed sequence
of non-reserved `le_sig_SetEventHandler` calls. -/
theorem applyCalls_maskInv (cs : List SetCall) :
    ∀ st : Option MonitorObj, (∀ c ∈ cs, reservedCheck c.sigNum = false) →
      maskOf st = handlerSigsOf st →
      maskOf (applyCalls cs st) = handlerSigsOf (applyCalls cs st) := by
  induction cs with
  | nil => intro st _ hinv; exact hinv
  | cons c cs ih =>
      intro st hcs hinv
      have h1 : applyCalls (c :: cs) st = applyCalls cs (applyCall st c) := rfl
      rw [h1]
      exact ih (applyCall st c)
        (fun d hd => hcs d (List.mem_cons_of_mem c hd))
        (maskInv_step st c (hcs c (List.mem_cons_self c cs)) hinv)

/-- C1: after any finite sequence of `le_sig_SetEventHandler` calls on one
thread, each with a non-reserved signal number, the set of signal numbers
installed in that thread's signalfd mask (the spec's kernel-blocked-signal
set, recomputed by each completing call) equals exactly the set of signal
numbers that currently have a handler entry in that thread's context. -/
theorem c1_blocked_set_matches_handler_set (cs : List SetCall)
    (hcs : ∀ c ∈ cs, reservedCheck c.sigNum = false) (n : Nat) :
    n ∈ maskOf (applyCalls cs none) ↔ n ∈ handlerSigsOf (applyCalls cs none) := by
  rw [applyCalls_maskInv cs none hcs rfl]

/-- Witness for C1 on the concrete sequence register 10, register 12,
remove 10, checked at signal number 12. -/
theorem c1_blocked_set_matches_handler_set_witness :
    (∀ c ∈ csEx, reservedCheck c.sigNum = false) ∧
    (12 ∈ maskOf (applyCalls csEx none) ↔
      12 ∈ handlerSigsOf (applyCalls csEx none)) :=
  ⟨by decide, c1_blocked_set_matches_handler_set csEx (by decide) 12⟩

/-- `FindHandlerObj` yields `NULL` exactly when no entry carries the signal
number. -/
theorem findHandlerObj_eq_none_iff (s : Nat) (l : List HandlerObj) :
    FindHandlerObj s l = none ↔ ∀ h ∈ l, h.sigNum ≠ s := by
  induction l with
  | nil => simp [FindHandlerObj]
  | cons h t ih =>
      by_cases hh : h.sigNum = s
      · simp [FindHandlerObj, hh]
      · simp [FindHandlerObj, hh, ih]

/-- Updating a callback in place leaves the sequence of signal numbers
unchanged. -/
theorem map_sigNum_updateFirst (s f : Nat) (l : List HandlerObj) :
    (updateFirst s f l).map (fun h => h.sigNum) = l.map (fun h => h.sigNum) := by
  induction l with
  | nil => rfl
  | cons h t ih =>
      by_cases hh : h.sigNum = s
      · simp [updateFirst, hh]
      · simp [updateFirst, hh, ih]

/-- Removing an entry keeps a subsequence of the signal numbers. -/
theorem map_sigNum_removeFirst_sublist (s : Nat) (l : List HandlerObj) :
    ((removeFirst s l).map (fun h => h.sigNum)).Sublist
      (l.map (fun h => h.sigNum)) := by
  induction l with
  | nil => simp [removeFirst]
  | cons h t ih =>
      by_cases hh : h.sigNum = s
      · simp [removeFirst, hh]
      · simpa [removeFirst, hh] using List.Sublist.cons₂ h.sigNum ih

/-- Every completed run of the shared find/edit/recompute code keeps the
handler list's signal numbers free of duplicates. -/
theorem setHandlerOnMonitor_nodup (s : Nat) (cb : Option Nat) (m : MonitorObj)
    (fd : Nat) (hnd : (m.handlerObjList.map (fun h => h.sigNum)).Nodup) :
    ∃ m2, setHandlerOnMonitor s cb m fd = SetResult.ok (some m2) ∧
      (m2.handlerObjList.map (fun h => h.sigNum)).Nodup := by
  unfold setHandlerOnMonitor
  cases hF : FindHandlerObj s m.handlerObjList with
  | none =>
      cases cb with
      | none => exact ⟨m, rfl, hnd⟩
      | some f =>
          refine ⟨_, rfl, ?_⟩
          have hnotin : s ∉ m.handlerObjList.map (fun h => h.sigNum) := by
            rw [findHandlerObj_eq_none_iff] at hF
            intro hmem
            obtain ⟨h, hh, hs⟩ := List.mem_map.mp hmem
            exact hF h hh hs
          show ((m.handlerObjList ++
              [({ sigNum := s, handler := f } : HandlerObj)]).map
                (fun h => h.sigNum)).Nodup
          rw [List.map_append, List.nodup_append]
          refine ⟨hnd, by simp, ?_⟩
          intro a ha hb
          simp only [List.map_cons, List.map_nil, List.mem_singleton] at hb
          subst hb
          exact hnotin ha
  | some e =>
      cases cb with
      | none =>
          refine ⟨_, rfl, ?_⟩
          show ((removeFirst s m.handlerObjList).map (fun h => h.sigNum)).Nodup
          exact hnd.sublist (map_sigNum_removeFirst_sublist s m.handlerObjList)
      | some f =>
          refine ⟨_, rfl, ?_⟩
          show ((updateFirst s f m.handlerObjList).map (fun h => h.sigNum)).Nodup
          rw [map_sigNum_updateFirst]
          exact hnd

/-- One completed, non-reserved `le_sig_SetEventHandler` call preserves the
no-duplicate property of the handler list's signal numbers. -/
theorem nodupInv_step (st : Option MonitorObj) (c : SetCall)
    (hres : reservedCheck c.sigNum = false)
    (hnd : (handlerSigsOf st).Nodup) :
    (handlerSigsOf (applyCall st c)).Nodup := by
  obtain ⟨s, cb, fd⟩ := c
  unfold applyCall
  dsimp only at hres ⊢
  cases st with
  | none =>
      cases cb with
      | none =>
          rw [setEventHandler_eq_none_none s fd hres]
          exact List.nodup_nil
      | some f =>
          rw [setEventHandler_eq_none_some s f fd hres]
          obtain ⟨m2, heq, h2⟩ := setHandlerOnMonitor_nodup s (some f)
            { monitorRef := false, fd := none, sigMask := [],
              handlerObjList := [] } fd (by simp)
          rw [heq]
          exact h2
  | some m =>
      rw [setEventHandler_eq_some s cb m fd hres]
      obtain ⟨m2, heq, h2⟩ := setHandlerOnMonitor_nodup s cb m fd hnd
      rw [heq]
      exact h2

/-- The no-duplicate property is preserved along any completed sequence of
non-reserved `le_sig_SetEventHandler` calls. -/
theorem applyCalls_nodup (cs : List SetCall) :
    ∀ st : Option MonitorObj, (∀ c ∈ cs, reservedCheck c.sigNum = false) →
      (handlerSigsOf st).Nodup → (handlerSigsOf (applyCalls cs st)).Nodup := by
  induction cs with
  | nil => intro st _ hnd; exact hnd
  | cons c cs ih =>
      intro st hcs hnd
      have h1 : applyCalls (c :: cs) st = applyCalls cs (applyCall st c) := rfl
      rw [h1]
      exact ih (applyCall st c)
        (fun d hd => hcs d (List.mem_cons_of_mem c hd))
        (nodupInv_step st c (hcs c (List.mem_cons_self c cs)) hnd)

/-- When `FindHandlerObj` finds an entry, in-place update equals writing a
fresh record at that entry's position, leaving every other position
untouched. -/
theorem updateFirst_eq_set (s f : Nat) (l : List HandlerObj) (e : HandlerObj)
    (hF : FindHandlerObj s l = some e) :
    e.sigNum = s ∧ ∃ i, l.get? i = some e ∧
      updateFirst s f l = l.set i { sigNum := s, handler := f } := by
  induction l with
  | nil => simp [FindHandlerObj] at hF
  | cons h t ih =>
      by_cases hh : h.sigNum = s
      · unfold FindHandlerObj at hF
        rw [if_pos hh] at hF
        injection hF with he
        subst he
        refine ⟨hh, 0, rfl, ?_⟩
        unfold updateFirst
        rw [if_pos hh, hh]
        rfl
      · have hF' : FindHandlerObj s t = some e := by
          unfold FindHandlerObj at hF
          rwa [if_neg hh] at hF
        obtain ⟨hsig, i, hget, heq⟩ := ih hF'
        refine ⟨hsig, i + 1, hget, ?_⟩
        unfold updateFirst
        rw [if_neg hh, heq]
        rfl

/-- C10: after any completed sequence of non-reserved
`le_sig_SetEventHandler` calls, the thread's handler list holds at most one
entry per signal number (the signal numbers are duplicate-free); and
re-registering a callback for a signal that already has an entry updates the
entry in place: the resulting list is the old list with only that position
overwritten, the length unchanged (no new entry allocated, original position
kept). -/
theorem c10_unique_entries_and_inplace_update :
    (∀ cs : List SetCall, (∀ c ∈ cs, reservedCheck c.sigNum = false) →
        (handlerSigsOf (applyCalls cs none)).Nodup) ∧
    (∀ (m : MonitorObj) (s f fd : Nat) (e : HandlerObj),
        reservedCheck s = false →
        FindHandlerObj s m.handlerObjList = some e →
        ∃ m2 i, le_sig_SetEventHandler s (some f) (some m) fd =
            SetResult.ok (some m2) ∧
          m.handlerObjList.get? i = some e ∧ e.sigNum = s ∧
          m2.handlerObjList =
            m.handlerObjList.set i { sigNum := s, handler := f } ∧
          m2.handlerObjList.length = m.handlerObjList.length) := by
  constructor
  · intro cs hcs
    exact applyCalls_nodup cs none hcs List.nodup_nil
  · intro m s f fd e hres hF
    obtain ⟨hsig, i, hget, heq⟩ := updateFirst_eq_set s f m.handlerObjList e hF
    rw [setEventHandler_eq_some s (some f) m fd hres]
    unfold setHandlerOnMonitor
    rw [hF]
    refine ⟨_, i, rfl, hget, hsig, ?_, ?_⟩
    · show updateFirst s f m.handlerObjList = _
      exact heq
    · show (updateFirst s f m.handlerObjList).length = _
      rw [heq, List.length_set]

/-- Witness for C10: the example sequence yields duplicate-free signal
numbers, and re-registering signal 10 on a two-entry context updates in
place. -/
theorem c10_unique_entries_and_inplace_update_witness :
    (handlerSigsOf (applyCalls csEx none)).Nodup ∧
    (∃ m2 i, le_sig_SetEventHandler 10 (some 5) (some monitorEx2) 0 =
        SetResult.ok (some m2) ∧
      monitorEx2.handlerObjList.get? i = some { sigNum := 10, handler := 1 } ∧
      (HandlerObj.mk 10 1).sigNum = 10 ∧
      m2.handlerObjList =
        monitorEx2.handlerObjList.set i { sigNum := 10, handler := 5 } ∧
      m2.handlerObjList.length = monitorEx2.handlerObjList.length) :=
  ⟨c10_unique_entries_and_inplace_update.1 csEx (by decide),
   c10_unique_entries_and_inplace_update.2 monitorEx2 10 5 0
     { sigNum := 10, handler := 1 } (by decide) (by decide)⟩

/-- C5: characterization of the drain loop.  For every sequence of read
outcomes and every current-thread context: the invocations performed are
exactly, in order, those obtained from the records read before the first
terminator (`EINTR` outcomes being retried, i.e. dropped) by looking each
record's signal number up in that context's handler list — found entries are
invoked synchronously with the signal number, unfound ones silently dropped;
and the loop ends fatally exactly when the first non-record outcome is a
read error, while size 0 or `EAGAIN` end the batch normally. -/
theorem c5_drain_loop_characterization (reads : List ReadRes) (m : MonitorObj) :
    OurSigHandlerLoop reads (some m) =
      (((reads.filter (fun r => !isEintrRead r)).takeWhile isRecordRead).filterMap
          (fun r => match r with
            | ReadRes.record s =>
                (FindHandlerObj s m.handlerObjList).map (fun h => (s, h.handler))
            | _ => none),
       drainEndOf
         ((reads.filter (fun r => !isEintrRead r)).dropWhile isRecordRead)) := by
  induction reads with
  | nil => rfl
  | cons r rest ih =>
      cases r with
      | record s =>
          cases hF : FindHandlerObj s m.handlerObjList with
          | none =>
              simp only [OurSigHandlerLoop, hF]
              rw [ih]
              simp [isEintrRead, isRecordRead, List.takeWhile_cons,
                List.dropWhile_cons, hF]
          | some h =>
              simp only [OurSigHandlerLoop, hF]
              rw [ih]
              simp [isEintrRead, isRecordRead, List.takeWhile_cons,
                List.dropWhile_cons, hF]
      | zero =>
          simp [OurSigHandlerLoop, isEintrRead, isRecordRead,
            List.takeWhile_cons, List.dropWhile_cons, drainEndOf]
      | eagain =>
          simp [OurSigHandlerLoop, isEintrRead, isRecordRead,
            List.takeWhile_cons, List.dropWhile_cons, drainEndOf]
      | eintr =>
          simp only [OurSigHandlerLoop]
          rw [ih]
          simp [isEintrRead]
      | err =>
          simp [OurSigHandlerLoop, isEintrRead, isRecordRead,
            List.takeWhile_cons, List.dropWhile_cons, drainEndOf]

/-- When every write succeeds, the whole planned report is emitted. -/
theorem runWrites_all_ok (l : List WriteItem) (o : Nat → Bool)
    (ho : ∀ j, o j = true) : ∀ k, runWrites l o k = (l, true) := by
  induction l with
  | nil => intro k; rfl
  | cons it rest ih =>
      intro k
      unfold runWrites
      rw [ho k, if_pos rfl, ih (k + 1)]

/-- When the first failing write is the `i`-th one attempted and it lies
within the planned list, exactly the preceding writes are emitted and the
run reports failure. -/
theorem runWrites_stops_at_first_failure (l : List WriteItem) (o : Nat → Bool) :
    ∀ k i : Nat, (∀ j, j < i → o (k + j) = true) → o (k + i) = false →
      i < l.length → runWrites l o k = (l.take i, false) := by
  induction l with
  | nil =>
      intro k i _ _ hlen
      simp at hlen
  | cons it rest ih =>
      intro k i hsucc hfail hlen
      cases i with
      | zero =>
          unfold runWrites
          rw [show o k = false by simpa using hfail, if_neg (by simp)]
          rfl
      | succ i =>
          have hk : o k = true := by simpa using hsucc 0 (Nat.succ_pos i)
          have hrest : runWrites rest o (k + 1) = (rest.take i, false) := by
            refine ih (k + 1) i (fun j hj => ?_) ?_ ?_
            · have h2 : k + 1 + j = k + (j + 1) := by omega
              rw [h2]
              exact hsucc (j + 1) (Nat.succ_lt_succ hj)
            · have h2 : k + 1 + i = k + (i + 1) := by omega
              rw [h2]
              exact hfail
            · exact Nat.lt_of_succ_lt_succ (by simpa using hlen)
          unfold runWrites
          rw [hk, if_pos rfl, hrest]
          rfl

/-- C6: during crash-diagnostics emission, whenever the `k`-th write to the
diagnostic output fails (all earlier writes having succeeded) and that write
lies within the report, `ShowStackSignalHandler` emits exactly the sections
before it, re-raises the faulting signal, and returns — no later section is
emitted and the failed write is never retried or skipped over. -/
theorem c6_failed_write_reraises_immediately (sigNum : Nat) (env : CrashEnv)
    (o : Nat → Bool) (k : Nat)
    (hsucc : ∀ j, j < k → o j = true) (hfail : o k = false)
    (hlen : k < (plannedWrites sigNum env).length) :
    ShowStackSignalHandler sigNum env o =
      ((plannedWrites sigNum env).take k, CrashOutcome.raisedEarly) := by
  have h := runWrites_stops_at_first_failure (plannedWrites sigNum env) o 0 k
    (fun j hj => by simpa using hsucc j hj) (by simpa using hfail) hlen
  unfold ShowStackSignalHandler
  rw [h]
  rfl

/-- Witness for C6: the third write (index 2) failing on a concrete crash
environment truncates the report after two writes and raises early. -/
theorem c6_failed_write_reraises_immediately_witness :
    ShowStackSignalHandler SIGSEGV crashEnvEx oracleFailAt2 =
      ((plannedWrites SIGSEGV crashEnvEx).take 2, CrashOutcome.raisedEarly) :=
  c6_failed_write_reraises_immediately SIGSEGV crashEnvEx oracleFailAt2 2
    (by decide) (by decide) (by decide)

/-- C8 counterexample: when the version file cannot be opened at all (so the
version cannot be read from the fixed well-known path), the handler does not
report `Cannot read legato version` — the claim's "whenever the version
cannot be read ... reports cannot read version" fails at this input.  (The
rest of the report is still emitted and the run completes.) -/
theorem c8_counterexample_open_failure_silent :
    WriteItem.cannotReadVersion ∉
      (ShowStackSignalHandler SIGSEGV crashEnvNoVersionFile (fun _ => true)).1 ∧
    (ShowStackSignalHandler SIGSEGV crashEnvNoVersionFile (fun _ => true)).2 =
      CrashOutcome.completedAndRaised := by
  decide

/-- C8 (amended): in the crash report the version section is best-effort:
when the version file opens but reading it yields no data, the handler
reports `Cannot read legato version`; when the file cannot be opened at all
the section body is silently skipped (header only).  In both cases only this
section degrades: the handler continues with the remaining sections (the
`DONE` marker is still planned, and with all writes succeeding the full
report is emitted) instead of aborting.  This theorem proves the read-failure
half together with continuation; the open-failure half is the subject of the
counterexample. -/
theorem c8_version_failure_degrades_section_only (sigNum : Nat) (env : CrashEnv)
    (hOpen : env.versionOpenOk = true) (hRead : env.versionRead = none) :
    WriteItem.cannotReadVersion ∈ plannedWrites sigNum env ∧
    WriteItem.doneMarker ∈ plannedWrites sigNum env ∧
    ShowStackSignalHandler sigNum env (fun _ => true) =
      (plannedWrites sigNum env, CrashOutcome.completedAndRaised) := by
  refine ⟨?_, ?_, ?_⟩
  · simp [plannedWrites, hOpen, hRead]
  · simp [plannedWrites]
  · unfold ShowStackSignalHandler
    rw [runWrites_all_ok (plannedWrites sigNum env) (fun _ => true)
      (fun j => rfl) 0]
    rfl

/-- Witness for the amended C8 on a concrete environment whose version file
opens but reads no data. -/
theorem c8_version_failure_degrades_section_only_witness :
    WriteItem.cannotReadVersion ∈ plannedWrites SIGSEGV crashEnvEmptyVersion ∧
    WriteItem.doneMarker ∈ plannedWrites SIGSEGV crashEnvEmptyVersion ∧
    ShowStackSignalHandler SIGSEGV crashEnvEmptyVersion (fun _ => true) =
      (plannedWrites SIGSEGV crashEnvEmptyVersion,
       CrashOutcome.completedAndRaised) :=
  c8_version_failure_degrades_section_only SIGSEGV crashEnvEmptyVersion rfl rfl

/-- C3 counterexample: with the disable toggle absent (crash diagnostics not
disabled), `le_sig_InstallShowStackHandler` installs no handler for the trap
signal — contradicting the claim that every member of the fatal-signal set,
trap included, gets the crash-diagnostics handler. -/
theorem c3_counterexample_trap_not_installed :
    SIGTRAP ∉ (le_sig_InstallShowStackHandler none).map
      (fun a => a.sigNum) := by
  decide

/-- C3 (amended): `le_sig_InstallShowStackHandler`, when not disabled by the
`SIGNAL_SHOW_INFO` toggle, installs the crash-diagnostics handler for
segmentation fault, bus error, illegal instruction, floating-point exception
and abort — but not for trap — each with one-shot semantics
(`SA_RESETHAND`: the disposition reverts to default after the handler's
first invocation). -/
theorem c3_installs_five_fatal_signals_one_shot (info : Option String)
    (h : showInfoDisabled info = false) :
    (le_sig_InstallShowStackHandler info).map (fun a => a.sigNum) =
      [SIGSEGV, SIGBUS, SIGILL, SIGFPE, SIGABRT] ∧
    ∀ a ∈ le_sig_InstallShowStackHandler info, a.resethand = true := by
  unfold le_sig_InstallShowStackHandler
  rw [h]
  exact ⟨rfl, by decide⟩

/-- Witness for the amended C3 with the toggle unset. -/
theorem c3_installs_five_fatal_signals_one_shot_witness :
    (le_sig_InstallShowStackHandler none).map (fun a => a.sigNum) =
      [SIGSEGV, SIGBUS, SIGILL, SIGFPE, SIGABRT] ∧
    ∀ a ∈ le_sig_InstallShowStackHandler none, a.resethand = true :=
  c3_installs_five_fatal_signals_one_shot none rfl
